import Mathlib

/-
Verification of the SocketSupport shim (SocketSupport/SocketSupport.cpp and
SocketSupport/SocketSupport.h): a static utility class with a static
constructor that runs WSAStartup, a DuplicateStdinSocket operation that
duplicates the inherited standard-input handle as a socket, and
EventSelectRead / EventSelectWrite operations that register an OS event
for socket readiness.

The embedding is a shallow one: every OS call made by the code
(WSAStartup, GetStdHandle, WSADuplicateSocket, WSAGetLastError,
CloseHandle, WSACreateEvent, WSAEventSelect) is modelled by an explicit
input describing the outcome the OS produces for that call, and each
operation returns, besides its managed result or thrown exception, a
trace of the observable effects (handles closed, OS calls made, OS event
state) so that frame and leak properties can be stated.
-/

namespace SocketSupport

/-- Winsock constant SOCKET_ERROR from the Windows SDK headers. -/
def SOCKET_ERROR : Int := -1

/-- Winsock error code WSAENOTSOCK from the Windows SDK headers. -/
def WSAENOTSOCK : Int := 10038

/-- Winsock network-event mask FD_READ (bit 0) from the Windows SDK headers. -/
def FD_READ : Int := 1

/-- Winsock network-event mask FD_WRITE (bit 1) from the Windows SDK headers. -/
def FD_WRITE : Int := 2

/-- The MAKEWORD macro: low byte and high byte packed into a 16-bit word. -/
def MAKEWORD (lo hi : Nat) : Nat := lo % 256 + 256 * (hi % 256)

/-- The version word the static constructor requests: MAKEWORD(2, 0), Winsock 2.0. -/
def wVersionRequested : Nat := MAKEWORD 2 0

/-- Byte size of the WSAPROTOCOL_INFO structure (WSAPROTOCOL_INFOW under
UNICODE, which the source assumes by casting the buffer to WSAPROTOCOL_INFOW*). -/
def sizeofWSAPROTOCOL_INFO : Nat := 628

/-- Managed exceptions the shim can raise: System.Net.Sockets.SocketException
carrying an integer error code, and System.OverflowException raised by
IntPtr.ToInt32 on a 64-bit process when the value does not fit in Int32. -/
inductive ManagedException where
  | socketException (errorCode : Int)
  | overflowException
deriving DecidableEq, Repr

/-- Flags of System.Net.Sockets.SocketInformationOptions used by the source. -/
inductive SocketInformationOptions where
  | NonBlocking
  | Connected
  | Listening
  | UseOnlyOverlappedIO
deriving DecidableEq, Repr

/-- The System.Net.Sockets.SocketInformation record: the ProtocolInformation
byte array (none models a null reference) and the Options flags (none models
no flag assigned yet). -/
structure SocketInformation where
  protocolInformation : Option (List Nat)
  options : Option SocketInformationOptions
deriving DecidableEq, Repr

/-- The static constructor SocketSupport::SocketSupport. The OS behavior of
WSAStartup is an input: a function from the requested version word to the
integer WSAStartup returns. The code compares that return value with
SOCKET_ERROR and throws SocketException on equality. -/
def socketSupportCctor (wsaStartup : Nat → Int) : Except ManagedException Unit :=
  let err := wsaStartup wVersionRequested
  if err = SOCKET_ERROR then
    Except.error (ManagedException.socketException err)
  else
    Except.ok ()

/-- OS behavior inputs for one call of DuplicateStdinSocket: the handle
GetStdHandle(STD_INPUT_HANDLE) yields, the current process id, the return
value of WSADuplicateSocket, the bytes WSADuplicateSocket writes into the
caller-supplied WSAPROTOCOL_INFO buffer (a prefix of the buffer; bytes it
does not touch keep their value), and the value WSAGetLastError reports
after a failure. -/
structure DupOsBehavior where
  stdinHandle : Int
  currentProcessId : Nat
  dupRet : Int
  dupWritten : List Nat
  lastError : Int
deriving Repr

/-- Result of one call of DuplicateStdinSocket: the returned boolean or the
thrown exception, the final contents of the by-reference SocketInformation
record, and the list of handles passed to CloseHandle during the call. -/
structure DupResult where
  returned : Except ManagedException Bool
  record : SocketInformation
  closedHandles : List Int
deriving Repr

/-- SocketSupport::DuplicateStdinSocket. A fresh zero-initialized byte array
of sizeof(WSAPROTOCOL_INFO) bytes is allocated and assigned to
result.ProtocolInformation, result.Options is set to Listening, the current
standard-input handle is fetched, and WSADuplicateSocket is asked to fill
the pinned buffer. Because the record references the very buffer the OS
writes into, the write is visible through the record on every path. On
WSADuplicateSocket failure the code branches on WSAGetLastError: WSAENOTSOCK
returns false, anything else throws SocketException with that code; on
success CloseHandle is called on the old handle and true is returned. -/
def duplicateStdinSocket (os : DupOsBehavior) (result0 : SocketInformation) : DupResult :=
  let protocolInfo : List Nat := List.replicate sizeofWSAPROTOCOL_INFO 0
  let result1 : SocketInformation :=
    { result0 with
        protocolInformation := some protocolInfo,
        options := some SocketInformationOptions.Listening }
  let oldHandle := os.stdinHandle
  let bufAfter : List Nat :=
    os.dupWritten.take sizeofWSAPROTOCOL_INFO ++
      List.replicate (sizeofWSAPROTOCOL_INFO - os.dupWritten.length) 0
  let result2 : SocketInformation := { result1 with protocolInformation := some bufAfter }
  let err := os.dupRet
  if err = SOCKET_ERROR then
    let errCode := os.lastError
    if errCode = WSAENOTSOCK then
      { returned := Except.ok false, record := result2, closedHandles := [] }
    else
      { returned := Except.error (ManagedException.socketException errCode),
        record := result2, closedHandles := [] }
  else
    { returned := Except.ok true, record := result2, closedHandles := [oldHandle] }

/-- State of the OS event namespace: the next fresh event handle WSACreateEvent
hands out, and the event objects that are currently alive (created, not closed). -/
structure OsState where
  nextEvent : Nat
  liveEvents : List Nat
deriving DecidableEq, Repr

/-- Winsock constant WSA_INVALID_EVENT (a null event handle). -/
def WSA_INVALID_EVENT : Nat := 0

/-- OS behavior inputs for one call of EventSelect: whether WSACreateEvent
fails (returning WSA_INVALID_EVENT), the return value of WSAEventSelect, and
the value WSAGetLastError would report after a WSAEventSelect failure. -/
structure EvOsBehavior where
  createEventFails : Bool
  selRet : Int
  lastError : Int
deriving Repr

/-- One OS call observable from EventSelect, recorded in program order. -/
inductive OsCall where
  | createEvent
  | eventSelect (s : Int) (ev : Nat) (mask : Int)
  | closeEvent (ev : Nat)
deriving DecidableEq, Repr

/-- Result of one call of EventSelect: the returned wait handle (the event
handle wrapped in a SafeWaitHandle) or the thrown exception, the OS event
state after the call, and the trace of OS calls made. -/
structure EvResult where
  returned : Except ManagedException Nat
  state : OsState
  calls : List OsCall
deriving Repr

/-- Smallest value representable as a 32-bit signed integer. -/
def int32Min : Int := -(2 ^ 31)

/-- Largest value representable as a 32-bit signed integer. -/
def int32Max : Int := 2 ^ 31 - 1

/-- SocketSupport::EventSelect. First sInt.ToInt32() runs: on a 64-bit
process it throws OverflowException when the IntPtr value is outside the
32-bit signed range, before any OS call; otherwise it yields the value
itself, which cast to SOCKET is passed onward unchanged. Then WSACreateEvent
runs (its failure is not checked by the code), WSAEventSelect associates the
event with the socket under the given mask, and on a SOCKET_ERROR return the
code throws SocketException carrying the WSAEventSelect return value itself;
otherwise the event handle is returned wrapped as a SafeWaitHandle. -/
def eventSelect (beh : EvOsBehavior) (st : OsState) (sInt : Int) (eventMask : Int) : EvResult :=
  if int32Min ≤ sInt ∧ sInt ≤ int32Max then
    let s : Int := sInt
    let evSt : Nat × OsState :=
      if beh.createEventFails then
        (WSA_INVALID_EVENT, st)
      else
        (st.nextEvent,
          { nextEvent := st.nextEvent + 1, liveEvents := st.liveEvents ++ [st.nextEvent] })
    let ev := evSt.1
    let st1 := evSt.2
    let calls := [OsCall.createEvent, OsCall.eventSelect s ev eventMask]
    let err := beh.selRet
    if err = SOCKET_ERROR then
      { returned := Except.error (ManagedException.socketException err),
        state := st1, calls := calls }
    else
      { returned := Except.ok ev, state := st1, calls := calls }
  else
    { returned := Except.error ManagedException.overflowException,
      state := st, calls := [] }

/-- SocketSupport::EventSelectRead: EventSelect with mask FD_READ. -/
def eventSelectRead (beh : EvOsBehavior) (st : OsState) (sInt : Int) : EvResult :=
  eventSelect beh st sInt FD_READ

/-- SocketSupport::EventSelectWrite: EventSelect with mask FD_WRITE. -/
def eventSelectWrite (beh : EvOsBehavior) (st : OsState) (sInt : Int) : EvResult :=
  eventSelect beh st sInt FD_WRITE

/-- The public operations of the component. -/
inductive Operation where
  | dupStdin
  | evRead
  | evWrite
deriving DecidableEq, Repr

/-- Observable events of a process execution: a run of the static
constructor, or a run of one public operation. -/
inductive TraceEvent where
  | cctorRun
  | opRun (op : Operation)
deriving DecidableEq, Repr

/-- Modelled from the spec: the managed runtime guarantee that a static
constructor runs exactly once, triggered by the first access to any static
member, before that member executes. The CLR dispatch of a single
invocation: if the class is already initialized the operation just runs,
otherwise the static constructor runs first and the class becomes
initialized. This guarantee lives in the runtime, not in the repository
sources. -/
def clrInvoke (initialized : Bool) (op : Operation) : Bool × List TraceEvent :=
  if initialized then
    (true, [TraceEvent.opRun op])
  else
    (true, [TraceEvent.cctorRun, TraceEvent.opRun op])

/-- Modelled from the spec: running a whole sequence of invocations of the
public operations under the CLR static-constructor dispatch, accumulating
the event log. -/
def clrRun (initialized : Bool) : List Operation → Bool × List TraceEvent
  | [] => (initialized, [])
  | op :: ops =>
    let step := clrInvoke initialized op
    let rest := clrRun step.1 ops
    (rest.1, step.2 ++ rest.2)

/-- Helper: the record contents after any call of DuplicateStdinSocket are the
same on every path: the OS-written buffer and the Listening flag. -/
theorem duplicateStdinSocket_record_eq (os : DupOsBehavior) (r0 : SocketInformation) :
    (duplicateStdinSocket os r0).record =
      { protocolInformation := some (os.dupWritten.take sizeofWSAPROTOCOL_INFO ++
          List.replicate (sizeofWSAPROTOCOL_INFO - os.dupWritten.length) 0),
        options := some SocketInformationOptions.Listening } := by
  unfold duplicateStdinSocket
  by_cases hfail : os.dupRet = SOCKET_ERROR
  · by_cases hns : os.lastError = WSAENOTSOCK
    · simp [hfail, hns]
    · simp [hfail, hns]
  · simp [hfail]

/-- Helper: the buffer after the OS write keeps the allocated byte length. -/
theorem dupBuffer_length (l : List Nat) (n : Nat) :
    (l.take n ++ List.replicate (n - l.length) 0).length = n := by
  simp only [List.length_append, List.length_take, List.length_replicate]
  omega

/-- C1: when the OS duplication call fails with WSAENOTSOCK, DuplicateStdinSocket
returns false without raising; when it fails with any other error condition, it
throws a SocketException carrying exactly the WSAGetLastError value, returning
no boolean. -/
theorem duplicateStdinSocket_failure_policy (os : DupOsBehavior) (r0 : SocketInformation)
    (hfail : os.dupRet = SOCKET_ERROR) :
    (os.lastError = WSAENOTSOCK →
      (duplicateStdinSocket os r0).returned = Except.ok false) ∧
    (os.lastError ≠ WSAENOTSOCK →
      (duplicateStdinSocket os r0).returned =
        Except.error (ManagedException.socketException os.lastError)) := by
  constructor <;> intro h <;> simp [duplicateStdinSocket, hfail, h]

/-- Witness for C1 at concrete inputs: a not-a-socket failure and a
WSAEDISCON-class failure with code 10093. -/
theorem duplicateStdinSocket_failure_policy_witness :
    (duplicateStdinSocket
        { stdinHandle := 5, currentProcessId := 42, dupRet := -1,
          dupWritten := [], lastError := 10038 }
        { protocolInformation := none, options := none }).returned = Except.ok false ∧
    (duplicateStdinSocket
        { stdinHandle := 5, currentProcessId := 42, dupRet := -1,
          dupWritten := [], lastError := 10093 }
        { protocolInformation := none, options := none }).returned =
      Except.error (ManagedException.socketException 10093) :=
  ⟨(duplicateStdinSocket_failure_policy _ _ (by decide)).1 (by decide),
   (duplicateStdinSocket_failure_policy _ _ (by decide)).2 (by decide)⟩

/-- C4: the original standard-input handle is closed exactly when the call
returns true; on the false outcome and on the thrown outcome no handle is
closed. -/
theorem duplicateStdinSocket_close_iff_success (os : DupOsBehavior) (r0 : SocketInformation) :
    ((duplicateStdinSocket os r0).returned = Except.ok true →
      (duplicateStdinSocket os r0).closedHandles = [os.stdinHandle]) ∧
    ((duplicateStdinSocket os r0).returned ≠ Except.ok true →
      (duplicateStdinSocket os r0).closedHandles = []) := by
  unfold duplicateStdinSocket
  by_cases hfail : os.dupRet = SOCKET_ERROR
  · by_cases hns : os.lastError = WSAENOTSOCK
    · simp [hfail, hns]
    · simp [hfail, hns]
  · simp [hfail]

/-- Witness for C4 at concrete inputs: a successful duplication closes handle 7,
and a not-a-socket outcome closes nothing. -/
theorem duplicateStdinSocket_close_iff_success_witness :
    (duplicateStdinSocket
        { stdinHandle := 7, currentProcessId := 42, dupRet := 0,
          dupWritten := [], lastError := 0 }
        { protocolInformation := none, options := none }).closedHandles = [7] ∧
    (duplicateStdinSocket
        { stdinHandle := 7, currentProcessId := 42, dupRet := -1,
          dupWritten := [], lastError := 10038 }
        { protocolInformation := none, options := none }).closedHandles = [] :=
  ⟨(duplicateStdinSocket_close_iff_success _ _).1 (by rfl),
   (duplicateStdinSocket_close_iff_success _ _).2
     (by simp [duplicateStdinSocket, SOCKET_ERROR, WSAENOTSOCK])⟩

/-- C5: when the OS duplication call succeeds, DuplicateStdinSocket returns
true, the record blob is exactly the bytes the OS wrote into the (aliased)
buffer, and the original standard-input handle is closed. -/
theorem duplicateStdinSocket_success_populates (os : DupOsBehavior) (r0 : SocketInformation)
    (hok : os.dupRet ≠ SOCKET_ERROR)
    (hlen : os.dupWritten.length = sizeofWSAPROTOCOL_INFO) :
    (duplicateStdinSocket os r0).returned = Except.ok true ∧
    (duplicateStdinSocket os r0).record.protocolInformation = some os.dupWritten ∧
    (duplicateStdinSocket os r0).closedHandles = [os.stdinHandle] := by
  refine ⟨?_, ?_, ?_⟩
  · simp [duplicateStdinSocket, hok]
  · rw [duplicateStdinSocket_record_eq]
    rw [← hlen]
    simp [List.take_length]
  · simp [duplicateStdinSocket, hok]

/-- Witness for C5 at a concrete input: the OS writes 628 bytes of value 1. -/
theorem duplicateStdinSocket_success_populates_witness :
    (duplicateStdinSocket
        { stdinHandle := 9, currentProcessId := 42, dupRet := 0,
          dupWritten := List.replicate 628 1, lastError := 0 }
        { protocolInformation := none, options := none }).returned = Except.ok true ∧
    (duplicateStdinSocket
        { stdinHandle := 9, currentProcessId := 42, dupRet := 0,
          dupWritten := List.replicate 628 1, lastError := 0 }
        { protocolInformation := none, options := none }).record.protocolInformation =
      some (List.replicate 628 1) ∧
    (duplicateStdinSocket
        { stdinHandle := 9, currentProcessId := 42, dupRet := 0,
          dupWritten := List.replicate 628 1, lastError := 0 }
        { protocolInformation := none, options := none }).closedHandles = [9] :=
  duplicateStdinSocket_success_populates _ _ (by decide)
    (by rw [List.length_replicate, sizeofWSAPROTOCOL_INFO])

/-- C6: on every call, whatever the outcome, the record holds a buffer of
exactly sizeof(WSAPROTOCOL_INFO) bytes and the Listening flag; the buffer is
fresh in the sense that the final record does not depend on the record value
the caller passed in. -/
theorem duplicateStdinSocket_record_shape (os : DupOsBehavior) (r0 : SocketInformation) :
    (duplicateStdinSocket os r0).record.options = some SocketInformationOptions.Listening ∧
    (∃ b, (duplicateStdinSocket os r0).record.protocolInformation = some b ∧
      b.length = sizeofWSAPROTOCOL_INFO) ∧
    (∀ r1 : SocketInformation,
      (duplicateStdinSocket os r1).record = (duplicateStdinSocket os r0).record) := by
  refine ⟨?_, ?_, ?_⟩
  · rw [duplicateStdinSocket_record_eq]
  · refine ⟨_, ?_, dupBuffer_length os.dupWritten sizeofWSAPROTOCOL_INFO⟩
    rw [duplicateStdinSocket_record_eq]
  · intro r1
    rw [duplicateStdinSocket_record_eq, duplicateStdinSocket_record_eq]

/-- C7: EventSelectRead passes exactly the FD_READ mask and EventSelectWrite
exactly the FD_WRITE mask; two successful calls on the same socket each create
a fresh OS event, return without error, and yield distinct wait handles. -/
theorem eventSelect_read_write_fresh (beh1 beh2 : EvOsBehavior) (st : OsState) (sInt : Int)
    (hrange : int32Min ≤ sInt ∧ sInt ≤ int32Max)
    (hc1 : beh1.createEventFails = false) (hs1 : beh1.selRet ≠ SOCKET_ERROR)
    (hc2 : beh2.createEventFails = false) (hs2 : beh2.selRet ≠ SOCKET_ERROR) :
    (eventSelectRead beh1 st sInt).calls =
      [OsCall.createEvent, OsCall.eventSelect sInt st.nextEvent FD_READ] ∧
    (eventSelectWrite beh2 (eventSelectRead beh1 st sInt).state sInt).calls =
      [OsCall.createEvent, OsCall.eventSelect sInt (st.nextEvent + 1) FD_WRITE] ∧
    (eventSelectRead beh1 st sInt).returned = Except.ok st.nextEvent ∧
    (eventSelectWrite beh2 (eventSelectRead beh1 st sInt).state sInt).returned =
      Except.ok (st.nextEvent + 1) ∧
    st.nextEvent ≠ st.nextEvent + 1 ∧
    FD_READ ≠ FD_WRITE := by
  have hread : eventSelectRead beh1 st sInt =
      { returned := Except.ok st.nextEvent,
        state := { nextEvent := st.nextEvent + 1, liveEvents := st.liveEvents ++ [st.nextEvent] },
        calls := [OsCall.createEvent, OsCall.eventSelect sInt st.nextEvent FD_READ] } := by
    simp [eventSelectRead, eventSelect, hrange, hc1, hs1]
  have hwrite : eventSelectWrite beh2 (eventSelectRead beh1 st sInt).state sInt =
      { returned := Except.ok (st.nextEvent + 1),
        state :=
          { nextEvent := st.nextEvent + 1 + 1,
            liveEvents := st.liveEvents ++ [st.nextEvent] ++ [st.nextEvent + 1] },
        calls := [OsCall.createEvent, OsCall.eventSelect sInt (st.nextEvent + 1) FD_WRITE] } := by
    rw [hread]
    simp [eventSelectWrite, eventSelect, hrange, hc2, hs2]
  rw [hwrite, hread]
  exact ⟨rfl, rfl, rfl, rfl, by omega, by decide⟩

/-- Witness for C7 at concrete inputs: socket handle 7, fresh OS state. -/
theorem eventSelect_read_write_fresh_witness :
    (eventSelectRead { createEventFails := false, selRet := 0, lastError := 0 }
        { nextEvent := 1, liveEvents := [] } 7).calls =
      [OsCall.createEvent, OsCall.eventSelect 7 1 FD_READ] ∧
    (eventSelectWrite { createEventFails := false, selRet := 0, lastError := 0 }
        (eventSelectRead { createEventFails := false, selRet := 0, lastError := 0 }
          { nextEvent := 1, liveEvents := [] } 7).state 7).calls =
      [OsCall.createEvent, OsCall.eventSelect 7 2 FD_WRITE] ∧
    (eventSelectRead { createEventFails := false, selRet := 0, lastError := 0 }
        { nextEvent := 1, liveEvents := [] } 7).returned = Except.ok 1 ∧
    (eventSelectWrite { createEventFails := false, selRet := 0, lastError := 0 }
        (eventSelectRead { createEventFails := false, selRet := 0, lastError := 0 }
          { nextEvent := 1, liveEvents := [] } 7).state 7).returned = Except.ok 2 ∧
    (1 : Nat) ≠ 2 ∧
    FD_READ ≠ FD_WRITE :=
  eventSelect_read_write_fresh _ _ _ 7 (by decide) (by decide) (by decide)
    (by decide) (by decide)

/-- C9: EventSelect first narrows the IntPtr handle with ToInt32. For a value
in the 32-bit signed range the very value is what reaches the OS association
call; for a value outside that range the conversion throws OverflowException
before any OS call is made, leaving the OS event state untouched. -/
theorem eventSelect_narrowing (beh : EvOsBehavior) (st : OsState) (sInt eventMask : Int) :
    ((int32Min ≤ sInt ∧ sInt ≤ int32Max) →
      ∃ ev, (eventSelect beh st sInt eventMask).calls =
        [OsCall.createEvent, OsCall.eventSelect sInt ev eventMask]) ∧
    (¬(int32Min ≤ sInt ∧ sInt ≤ int32Max) →
      (eventSelect beh st sInt eventMask).returned =
          Except.error ManagedException.overflowException ∧
      (eventSelect beh st sInt eventMask).calls = [] ∧
      (eventSelect beh st sInt eventMask).state = st) := by
  constructor
  · intro h
    refine ⟨if beh.createEventFails then WSA_INVALID_EVENT else st.nextEvent, ?_⟩
    rcases Bool.eq_false_or_eq_true beh.createEventFails with hce | hce <;>
      rcases eq_or_ne beh.selRet SOCKET_ERROR with hsel | hsel <;>
        simp [eventSelect, h, hce, hsel]
  · intro h
    simp [eventSelect, h]

/-- Witness for C9 at concrete inputs: handle 7 is in range and reaches the OS
unchanged; handle 2 to the power 31 overflows and no OS call happens. -/
theorem eventSelect_narrowing_witness :
    (∃ ev, (eventSelect { createEventFails := false, selRet := 0, lastError := 0 }
        { nextEvent := 1, liveEvents := [] } 7 FD_READ).calls =
      [OsCall.createEvent, OsCall.eventSelect 7 ev FD_READ]) ∧
    ((eventSelect { createEventFails := false, selRet := 0, lastError := 0 }
        { nextEvent := 1, liveEvents := [] } (2 ^ 31) FD_READ).returned =
          Except.error ManagedException.overflowException ∧
     (eventSelect { createEventFails := false, selRet := 0, lastError := 0 }
        { nextEvent := 1, liveEvents := [] } (2 ^ 31) FD_READ).calls = [] ∧
     (eventSelect { createEventFails := false, selRet := 0, lastError := 0 }
        { nextEvent := 1, liveEvents := [] } (2 ^ 31) FD_READ).state =
       { nextEvent := 1, liveEvents := [] }) :=
  ⟨(eventSelect_narrowing _ _ 7 FD_READ).1 (by decide),
   (eventSelect_narrowing _ _ (2 ^ 31) FD_READ).2 (by decide)⟩

/-- C10: when the association call fails, the event created earlier in the same
call is neither returned (the call throws) nor closed: it stays alive in the
OS state while no WSACloseEvent call appears in the trace. -/
theorem eventSelect_leaks_event_on_failure (beh : EvOsBehavior) (st : OsState)
    (sInt eventMask : Int)
    (hrange : int32Min ≤ sInt ∧ sInt ≤ int32Max)
    (hce : beh.createEventFails = false)
    (hsel : beh.selRet = SOCKET_ERROR) :
    (eventSelect beh st sInt eventMask).returned =
      Except.error (ManagedException.socketException SOCKET_ERROR) ∧
    st.nextEvent ∈ (eventSelect beh st sInt eventMask).state.liveEvents ∧
    ∀ ev, OsCall.closeEvent ev ∉ (eventSelect beh st sInt eventMask).calls := by
  have hres : eventSelect beh st sInt eventMask =
      { returned := Except.error (ManagedException.socketException SOCKET_ERROR),
        state := { nextEvent := st.nextEvent + 1, liveEvents := st.liveEvents ++ [st.nextEvent] },
        calls := [OsCall.createEvent, OsCall.eventSelect sInt st.nextEvent eventMask] } := by
    simp [eventSelect, hrange, hce, hsel]
  rw [hres]
  refine ⟨rfl, ?_, ?_⟩
  · simp
  · intro ev
    simp

/-- Witness for C10 at concrete inputs: the association on socket 7 fails, the
fresh event 1 stays alive and unclosed. -/
theorem eventSelect_leaks_event_on_failure_witness :
    (eventSelect { createEventFails := false, selRet := -1, lastError := 10022 }
        { nextEvent := 1, liveEvents := [] } 7 FD_READ).returned =
      Except.error (ManagedException.socketException SOCKET_ERROR) ∧
    (1 : Nat) ∈ (eventSelect { createEventFails := false, selRet := -1, lastError := 10022 }
        { nextEvent := 1, liveEvents := [] } 7 FD_READ).state.liveEvents ∧
    ∀ ev, OsCall.closeEvent ev ∉
      (eventSelect { createEventFails := false, selRet := -1, lastError := 10022 }
        { nextEvent := 1, liveEvents := [] } 7 FD_READ).calls :=
  eventSelect_leaks_event_on_failure _ _ 7 FD_READ (by decide) (by decide) (by decide)

/-- C2: evaluation at a concrete failing input. When WSAEventSelect fails on a
valid in-range socket and the OS error code (WSAGetLastError) is 10022, the
code throws SocketException carrying -1 (the WSAEventSelect return value
SOCKET_ERROR), not the OS error code 10022: the claim that the carried code
equals the OS error code of the failure does not hold on the code. -/
theorem eventSelectRead_failure_carries_socket_error :
    (eventSelectRead { createEventFails := false, selRet := -1, lastError := 10022 }
        { nextEvent := 1, liveEvents := [] } 7).returned =
      Except.error (ManagedException.socketException (-1)) ∧
    (-1 : Int) ≠ 10022 := by
  exact ⟨rfl, by decide⟩

/-- C3: evaluation at a concrete failing input. WSAStartup reports failure by
returning a nonzero error code such as WSASYSNOTREADY (10091), never
SOCKET_ERROR (-1); the static constructor compares the return value against
SOCKET_ERROR, so a genuine startup failure is treated as success and no
exception is raised, contrary to the header documentation. The requested
version is MAKEWORD(2, 0). -/
theorem socketSupportCctor_swallows_startup_failure :
    socketSupportCctor (fun _ => 10091) = Except.ok () ∧
    (10091 : Int) ≠ 0 ∧
    wVersionRequested = MAKEWORD 2 0 :=
  ⟨rfl, by decide, rfl⟩

/-- Helper: once the class is initialized, no run of the operations ever
executes the static constructor again. -/
theorem clrRun_initialized_no_cctor (ops : List Operation) :
    List.count TraceEvent.cctorRun (clrRun true ops).2 = 0 := by
  induction ops with
  | nil => rfl
  | cons op ops ih =>
    simp [clrRun, clrInvoke, List.count_append, List.count_cons, ih]

/-- C8: in every nonempty execution the static constructor runs exactly once
and it is the first event, before any operation; and once initialized, no
later invocation ever re-runs initialization (and the model has no
already-initialized failure at all). -/
theorem clr_initialization_exactly_once (ops : List Operation) (hne : ops ≠ []) :
    List.count TraceEvent.cctorRun (clrRun false ops).2 = 1 ∧
    (clrRun false ops).2.head? = some TraceEvent.cctorRun ∧
    List.count TraceEvent.cctorRun (clrRun true ops).2 = 0 := by
  cases ops with
  | nil => exact absurd rfl hne
  | cons op ops =>
    refine ⟨?_, ?_, clrRun_initialized_no_cctor _⟩
    · simp [clrRun, clrInvoke, List.count_append, List.count_cons,
        clrRun_initialized_no_cctor]
    · simp [clrRun, clrInvoke]

/-- Witness for C8 at a concrete input: the one-operation execution that calls
DuplicateStdinSocket once. -/
theorem clr_initialization_exactly_once_witness :
    List.count TraceEvent.cctorRun (clrRun false [Operation.dupStdin]).2 = 1 ∧
    (clrRun false [Operation.dupStdin]).2.head? = some TraceEvent.cctorRun ∧
    List.count TraceEvent.cctorRun (clrRun true [Operation.dupStdin]).2 = 0 :=
  clr_initialization_exactly_once [Operation.dupStdin] (by decide)

end SocketSupport
